import Mathlib

/-!
Shallow embedding of the `powerflow` repository's circuit-decomposition engine
(`powerflow/dataminer/model/connection.py`), node/branch registry
(`powerflow/dataminer/model/node.py`), endpoint resolution
(`powerflow/dataminer/__main__.py`), topology-repair pipeline
(`powerflow/analysis/network_validity_checker.py`) and scenario
parameterization (`powerflow/analysis/opf.py`,
`powerflow/analysis/data_preprocessor.py`), together with theorems settling
the specification claims about them.

Conventions: Python `int` is modelled as `Nat`/`Int` (Python ints are
unbounded), Python `float` values appearing in the modelled code paths are
small decimals and exact rationals, so they are modelled as `Rat`.
Python `//` on ints is `Int.fdiv` (floor division), `%` is `Int.emod`
(both agree with Python for the divisors that occur, which are positive).
`round` is Python 3 banker's rounding, modelled by `pyRound`.
Exceptions are modelled with `Except`.
-/

namespace PF

/-- Python 3 `round(x)`: round half to even (banker's rounding). -/
def pyRound (x : ℚ) : ℤ :=
  let f : ℤ := ⌊x⌋
  let r : ℚ := x - f
  if r < 1/2 then f
  else if 1/2 < r then f + 1
  else if f % 2 = 0 then f else f + 1

/-- Python 3 `round(x, n)` for rationals (round half to even at `n` digits). -/
def pyRoundTo (x : ℚ) (n : ℕ) : ℚ :=
  (pyRound (x * (10 : ℚ) ^ n) : ℚ) / (10 : ℚ) ^ n

/-- Truthiness of an optional Python string (`None` and `""` are falsy). -/
def pyTruthy : Option String → Bool
  | none => false
  | some s => s ≠ ""

/-- Split a character list at the characters satisfying `p`, keeping empty
pieces (the behaviour of `re.split`). -/
def splitCharsAux (p : Char → Bool) : List Char → List Char → List (List Char)
  | [], cur => [cur.reverse]
  | c :: rest, cur =>
    if p c then cur.reverse :: splitCharsAux p rest []
    else splitCharsAux p rest (c :: cur)

/-- `re.split('[;,]', s)`: split a string on `;` and `,`. -/
def pySplit (s : String) : List String :=
  (splitCharsAux (fun c => c = ';' ∨ c = ',') s.data []).map String.mk

/-- Decimal digit value of a character, if it is a digit. -/
def digitVal? (c : Char) : Option ℕ :=
  if c.isDigit then some (c.toNat - 48) else none

/-- Parse a non-empty all-digit character list as a natural number. -/
def parseNatChars : List Char → Option ℕ
  | [] => none
  | cs => cs.foldl (fun acc c =>
      match acc, digitVal? c with
      | some n, some d => some (10 * n + d)
      | _, _ => none) (some 0)

/-- Python `int(s)` on the clean non-negative decimal strings occurring in the
data; parse failure models a `ValueError`. -/
def parseNat? (s : String) : Option ℕ := parseNatChars s.data

/-- Python `float(s)` for the non-negative decimal strings occurring in the
frequency field (e.g. `"50"`, `"16.7"`, `"0"`); parse failure models a
`ValueError`. -/
def parseRat? (s : String) : Option ℚ :=
  match splitCharsAux (fun c => c = '.') s.data [] with
  | [w] => (parseNatChars w).map (fun n => (n : ℚ))
  | [w, fr] =>
    match parseNatChars w, parseNatChars fr with
    | some n, some m => some ((n : ℚ) + (m : ℚ) / (10 : ℚ) ^ fr.length)
    | _, _ => none
  | _ => none

/-- `ConnType` enum from `dataminer/model/__init__.py`. -/
inductive ConnType
  | undef | line | cable | hvdcLine | hvdcCable
deriving Repr, DecidableEq

/-- The exceptions raised by the modelled code
(`dataminer/model/__init__.py` and `dataminer/model/connection.py`).
`generic` stands for any exception other than the named domain errors
(`KeyError`, `IndexError`, `ValueError` from `int()`/`float()`, …), which the
loaders only see through their catch-all `except Exception` handler. -/
inductive PyErr
  | noVoltage
  | circuitCount
  | powerFrequency
  | cablesPerPhase
  | noValidCircuit
  | filtered
  | alreadyExists
  | generic
deriving Repr, DecidableEq

/-- Wire-catalog record (`WireType` data fields). -/
structure WireData where
  name : String
  rOhmPerKm : ℚ
  xOhmPerKm : ℚ
  cNfPerKm : ℚ
  maxIKa : ℚ
deriving Repr, DecidableEq

/-- `WireType.conn_types` table from `connection.py`. -/
def wire243 : WireData := ⟨"243-AL1/39-ST1A 110.0", 1188/10000, 39/100, 9, 645/1000⟩

def wire490_220 : WireData := ⟨"490-AL1/64-ST1A 220.0", 59/1000, 285/1000, 10, 96/100⟩

def wire490_380 : WireData := ⟨"490-AL1/64-ST1A 380.0", 59/1000, 253/1000, 11, 96/100⟩

def wireN2XS : WireData := ⟨"N2XS(FL)2Y 1x240 RM/35 64/110 kV", 75/1000, 149/1000, 135, 526/1000⟩

def wireXLPE220 : WireData := ⟨"XLPE 1×1600 Cu 220 (rough)", 12/1000, 12/100, 210, 13/10⟩

def wireXLPE380 : WireData := ⟨"XLPE 1x2500 Cu 380 (rough)", 9/1000, 11/100, 230, 2⟩

/-- `WireType.__init__` in the `ampacity_per_system=None` branch: select a
default wire type by voltage class and overhead/underground type
(note the comparison `conn_type == ConnType.LINE`, which is false for the
HVDC types), and round the table ampacity to 3 digits. -/
def wireTypeDefault (connType : ConnType) (voltage : ℕ) : WireData :=
  let data :=
    if voltage < 150000 then
      if connType = ConnType.line then wire243 else wireN2XS
    else if voltage < 250000 then
      if connType = ConnType.line then wire490_220 else wireXLPE220
    else
      if connType = ConnType.line then wire490_380 else wireXLPE380
  { data with maxIKa := pyRoundTo data.maxIKa 3 }

/-- One electrical circuit (`Circuit` without the capacity/ampacity/DLR
fields, which are apportioned after decomposition and are not needed by any
claim). -/
structure Circuit where
  voltage : ℕ
  frequency : ℚ
  phases : ℕ
  cables : ℤ
  systems : ℤ
  wire : WireData
deriving Repr, DecidableEq

/-- `Circuit.__init__`: raises `CablesPerPhaseError` unless the cable count is
divisible by the phase count; `systems = cables // phases`. -/
def mkCircuit (voltage : ℕ) (frequency : ℚ) (phases : ℕ) (cables : ℤ)
    (wire : WireData) : Except PyErr Circuit :=
  if cables % (phases : ℤ) ≠ 0 then .error .cablesPerPhase
  else .ok ⟨voltage, frequency, phases, cables, cables.fdiv (phases : ℤ), wire⟩

/-- `Connection.f2p`: frequency → phase count; a missing key is a `KeyError`
(seen by the loaders as a generic exception). -/
def f2p (f : ℚ) : Option ℕ :=
  if f = 50 then some 3
  else if f = 167/10 then some 2
  else if f = 1667/100 then some 2
  else if f = 0 then some 1
  else none

/-- The `filter_f` callback passed to `Connection.__init__`: it is applied both
to each candidate `Circuit` (line 415) and to the whole connection at the end
(line 463, modelled on the circuit list). -/
structure Filt where
  circ : Circuit → Bool
  conn : List Circuit → Bool

/-- First key with maximal value, i.e. Python
`max(d, key=d.get)` over a dict in insertion order. The empty case is
unreachable in the source (the dict has one entry per parsed frequency). -/
def maxByVal (l : List (ℚ × ℤ)) : ℚ :=
  match l with
  | [] => 0
  | kv :: rest => (rest.foldl (fun best kv' => if best.2 < kv'.2 then kv' else best) kv).1

/-- `d[f] -= 1` on an insertion-ordered association list. -/
def rcbfDec : List (ℚ × ℤ) → ℚ → List (ℚ × ℤ)
  | [], _ => []
  | (k, v) :: rest, f => if k = f then (k, v - 1) :: rest else (k, v) :: rcbfDec rest f

/-- `d[k] = v` on an insertion-ordered association list (overwrite keeps the
original position, like a Python dict). -/
def dictSet : List (ℚ × ℤ) → ℚ → ℤ → List (ℚ × ℤ)
  | [], k, v => [(k, v)]
  | (k', v') :: rest, k, v =>
    if k' = k then (k, v) :: rest else (k', v') :: dictSet rest k v

/-- `remaining_circuits_by_f = {f: circuits_list[i % len(circuits_list)]
for i, f in enumerate(frequencies)}` (line 313). -/
def mkRcbf (freqs : List ℚ) (clist : List ℕ) : List (ℚ × ℤ) :=
  freqs.enum.foldl (fun acc p => dictSet acc p.2 (clist.getD (p.1 % clist.length) 0 : ℤ)) []

/-- Context of the decomposition loop: the variables of `Connection.__init__`
that the loop body reads but never writes. -/
structure DecompCtx where
  ctype : ConnType
  frequencyRaw : Option String
  frequencies : List ℚ
  voltages : List ℕ
  circuitsList : List ℕ
  ci2vi : List ℕ
  flt : Option Filt

/-- Mutable state of the `while remaining_circuits > 0` loop
(lines 301-315 initialise it). -/
structure LoopSt where
  acc : List Circuit
  remCables : ℤ
  remCircuits : ℕ
  vi : ℕ
  fi : ℕ
  unused : List ℚ
  rcbf : List (ℚ × ℤ)

/-- Result of one loop iteration after a frequency `f` has been chosen
(everything except the new `fi` and the decrement of `remaining_circuits`,
which the caller applies). -/
structure EmitOut where
  acc : List Circuit
  remCables : ℤ
  vi : ℕ
  unused : List ℚ
  rcbf : List (ℚ × ℤ)

/-- Lines 372-419 of `connection.py`: given the chosen frequency `f`, compute
the phase count, book-keeping updates, the voltage (round-robin, via `ci2vi`
when several circuit counts were given), cables-per-phase and the emitted
`Circuit`. `remaining_circuits` is read from `st` (not yet decremented). -/
def emitStep (ctx : DecompCtx) (st : LoopSt) (f : ℚ) : Except PyErr EmitOut :=
  match f2p f with
  | none => .error .generic
  | some phases =>
    let unused' := if f ∈ st.unused then st.unused.erase f else st.unused
    let rcbf' := if st.rcbf.any (fun kv => kv.1 == f) then rcbfDec st.rcbf f else st.rcbf
    let idxE : Except PyErr ℕ :=
      if ctx.circuitsList.length > 1 then
        match ctx.ci2vi.get? st.vi with
        | some i => .ok i
        | none => .error .generic
      else .ok st.vi
    let voltE : Except PyErr (ℕ × ℕ) :=
      if phases = 3 ∨ phases = 1 then
        idxE.map (fun idx => (ctx.voltages.getD (idx % ctx.voltages.length) 0, st.vi + 1))
      else .ok (15000, st.vi)
    match voltE with
    | .error e => .error e
    | .ok (voltage, vi') =>
      let maxCpp : ℤ := st.remCables.fdiv (phases : ℤ)
      let target0 : ℤ := pyRound ((maxCpp : ℚ) / (st.remCircuits : ℚ))
      let targetE : Except PyErr ℤ :=
        if ctx.circuitsList.length > 1 ∧ ctx.frequencies.length > 1 then
          match ctx.frequencies.findIdx? (fun g => g == f) with
          | none => .error .generic
          | some i =>
            match ctx.circuitsList.get? i with
            | none => .error .generic
            | some cc => .ok (min target0 (cc : ℤ))
        else .ok target0
      match targetE with
      | .error e => .error e
      | .ok target =>
        let cCables : ℤ := max (phases : ℤ) ((phases : ℤ) * target)
        match mkCircuit voltage f phases cCables (wireTypeDefault ctx.ctype voltage) with
        | .error e => .error e
        | .ok c =>
          let acc' := match ctx.flt with
            | some fl => if fl.circ c then st.acc ++ [c] else st.acc
            | none => st.acc
          .ok ⟨acc', st.remCables - cCables, vi', unused', rcbf'⟩

/-- The `while remaining_circuits > 0` loop (lines 317-419): choose a
frequency through the cascade of conditions at lines 328-369 (the
"not enough cables" check at line 324 is commented out in the source and only
prints), possibly drop one presumed earth wire and retry, or emit one circuit
via `emitStep` and decrement `remaining_circuits`. -/
def decompLoop (ctx : DecompCtx) (st : LoopSt) : Except PyErr (List Circuit) :=
  match hR : st.remCircuits with
  | 0 => .ok st.acc
  | R + 1 =>
    if st.remCables % 3 = 0 ∧ st.remCables % 2 = 0 then
      if ctx.circuitsList.length > 1 ∧ ctx.frequencies.length > 1 then
        match emitStep ctx st (maxByVal st.rcbf) with
        | .error e => .error e
        | .ok s => decompLoop ctx ⟨s.acc, s.remCables, R, s.vi, st.fi, s.unused, s.rcbf⟩
      else
        let flist := if st.unused ≠ [] then st.unused else ctx.frequencies
        match emitStep ctx st (flist.getD (st.fi % flist.length) 0) with
        | .error e => .error e
        | .ok s => decompLoop ctx ⟨s.acc, s.remCables, R, s.vi, st.fi + 1, s.unused, s.rcbf⟩
    else if (50 : ℚ) ∈ ctx.frequencies ∧ (st.remCables % 3 = 0 ∨ st.remCables % 2 ≠ 0) then
      match emitStep ctx st 50 with
      | .error e => .error e
      | .ok s => decompLoop ctx ⟨s.acc, s.remCables, R, s.vi, st.fi, s.unused, s.rcbf⟩
    else if (0 : ℚ) ∈ ctx.frequencies then
      match emitStep ctx st 0 with
      | .error e => .error e
      | .ok s => decompLoop ctx ⟨s.acc, s.remCables, R, s.vi, st.fi, s.unused, s.rcbf⟩
    else if ¬ pyTruthy ctx.frequencyRaw ∧ st.remCables % 2 = 0 then
      match emitStep ctx st (167/10) with
      | .error e => .error e
      | .ok s => decompLoop ctx ⟨s.acc, s.remCables, R, s.vi, st.fi, s.unused, s.rcbf⟩
    else if (ctx.frequencies.any fun g => decide (0 < g ∧ g < 50)) ∧ st.remCables % 2 = 0 then
      match emitStep ctx st ((ctx.frequencies.find? fun g => decide (0 < g ∧ g < 50)).getD 0) with
      | .error e => .error e
      | .ok s => decompLoop ctx ⟨s.acc, s.remCables, R, s.vi, st.fi, s.unused, s.rcbf⟩
    else if hdrop : (st.remCables - 1) % 3 = 0 then
      decompLoop ctx ⟨st.acc, st.remCables - 1, st.remCircuits, st.vi, st.fi, st.unused, st.rcbf⟩
    else
      .error .powerFrequency
termination_by 2 * st.remCircuits + (if (st.remCables - 1) % 3 = 0 then 1 else 0)
decreasing_by
  all_goals simp_wf
  all_goals try rw [hR]
  all_goals (repeat' split) <;> omega

/-- Fuel-indexed computational twin of `decompLoop` (structurally recursive,
so that the kernel can evaluate concrete instances); `decompLoop_eq_fueled`
proves it agrees with `decompLoop` for the fuel used. -/
def decompLoopF : ℕ → DecompCtx → LoopSt → Except PyErr (List Circuit)
  | 0, _, _ => .error .generic
  | fuel + 1, ctx, st =>
    match st.remCircuits with
    | 0 => .ok st.acc
    | R + 1 =>
      if st.remCables % 3 = 0 ∧ st.remCables % 2 = 0 then
        if ctx.circuitsList.length > 1 ∧ ctx.frequencies.length > 1 then
          match emitStep ctx st (maxByVal st.rcbf) with
          | .error e => .error e
          | .ok s => decompLoopF fuel ctx ⟨s.acc, s.remCables, R, s.vi, st.fi, s.unused, s.rcbf⟩
        else
          let flist := if st.unused ≠ [] then st.unused else ctx.frequencies
          match emitStep ctx st (flist.getD (st.fi % flist.length) 0) with
          | .error e => .error e
          | .ok s => decompLoopF fuel ctx ⟨s.acc, s.remCables, R, s.vi, st.fi + 1, s.unused, s.rcbf⟩
      else if (50 : ℚ) ∈ ctx.frequencies ∧ (st.remCables % 3 = 0 ∨ st.remCables % 2 ≠ 0) then
        match emitStep ctx st 50 with
        | .error e => .error e
        | .ok s => decompLoopF fuel ctx ⟨s.acc, s.remCables, R, s.vi, st.fi, s.unused, s.rcbf⟩
      else if (0 : ℚ) ∈ ctx.frequencies then
        match emitStep ctx st 0 with
        | .error e => .error e
        | .ok s => decompLoopF fuel ctx ⟨s.acc, s.remCables, R, s.vi, st.fi, s.unused, s.rcbf⟩
      else if ¬ pyTruthy ctx.frequencyRaw ∧ st.remCables % 2 = 0 then
        match emitStep ctx st (167/10) with
        | .error e => .error e
        | .ok s => decompLoopF fuel ctx ⟨s.acc, s.remCables, R, s.vi, st.fi, s.unused, s.rcbf⟩
      else if (ctx.frequencies.any fun g => decide (0 < g ∧ g < 50)) ∧ st.remCables % 2 = 0 then
        match emitStep ctx st ((ctx.frequencies.find? fun g => decide (0 < g ∧ g < 50)).getD 0) with
        | .error e => .error e
        | .ok s => decompLoopF fuel ctx ⟨s.acc, s.remCables, R, s.vi, st.fi, s.unused, s.rcbf⟩
      else if (st.remCables - 1) % 3 = 0 then
        decompLoopF fuel ctx ⟨st.acc, st.remCables - 1, st.remCircuits, st.vi, st.fi, st.unused, st.rcbf⟩
      else
        .error .powerFrequency

theorem decompLoop_eq_F (fuel : ℕ) :
    ∀ (ctx : DecompCtx) (st : LoopSt),
      2 * st.remCircuits + (if (st.remCables - 1) % 3 = 0 then 1 else 0) < fuel →
      decompLoop ctx st = decompLoopF fuel ctx st := by
  induction fuel with
  | zero => intro ctx st h; omega
  | succ n ih =>
    intro ctx st h
    rw [decompLoop.eq_def, decompLoopF]
    have hb : (if (st.remCables - 1) % 3 = 0 then (1:ℕ) else 0) ≤ 1 := by split <;> omega
    cases hR : st.remCircuits with
    | zero => rfl
    | succ R =>
      rw [hR] at h
      simp only []
      repeat' split
      any_goals rfl
      all_goals try (apply ih; dsimp only; split <;> omega)
      apply ih
      dsimp only
      rename_i hdrop
      have h2 : (st.remCables - 1 - 1) % 3 ≠ 0 := by omega
      rw [if_pos hdrop] at h
      rw [if_neg h2]
      omega

/-- Rewrite rule replacing `decompLoop` by its fueled twin with sufficient
fuel, for kernel evaluation of concrete instances. -/
theorem decompLoop_eq_fueled (ctx : DecompCtx) (st : LoopSt) :
    decompLoop ctx st = decompLoopF (2 * st.remCircuits + 2) ctx st := by
  apply decompLoop_eq_F
  split <;> omega

/-- Lines 230-275 and 301-315 of `Connection.__init__` (after field parsing),
then the decomposition loop and the post-loop checks (lines 421-422 and 463):
the `interesting`/debug statements are pure logging; `voltages` arrives here
already filtered of the 15 kV rail tag (lines 205-221, handled in
`connectionInit`). Returns the final connection type (possibly switched to
HVDC) and the emitted circuit list. -/
def connectionCore (ctype0 : ConnType) (voltages : List ℕ)
    (frequencyRaw0 : Option String) (frequencies0 : List ℚ)
    (cablesList : List ℕ) (circuitsList0 : List ℕ) (flt : Option Filt) :
    Except PyErr (ConnType × List Circuit) :=
  let cables0 : ℕ := cablesList.sum
  let circuits0 : ℕ := circuitsList0.sum
  if circuits0 ≠ 0 ∧ cablesList.length > circuits0 then .error .circuitCount
  else
    let hv : ConnType × Option String × List ℚ :=
      if frequencyRaw0 = some "0" then
        if cables0 / (if circuits0 = 0 then 1 else circuits0) = 3 ∧
            voltages.any (fun v => v = 110000 ∨ v = 220000 ∨ v = 380000) then
          (ctype0, some "50", [(50 : ℚ)])
        else
          ((if ctype0 = ConnType.line then ConnType.hvdcLine else ConnType.hvdcCable),
            frequencyRaw0, frequencies0)
      else (ctype0, frequencyRaw0, frequencies0)
    let ctype := hv.1
    let frequencyRaw := hv.2.1
    let frequencies := hv.2.2
    let cd : List ℕ × ℕ :=
      if cablesList.length > 1 ∧ circuitsList0.length ≤ 1 then
        let cc := (cablesList.filter (fun c => c % 3 = 0)).map (fun c => c / 3)
        if circuits0 ≤ cc.sum ∧ cc.length = cablesList.length then (cc, cc.sum)
        else if circuits0 = 0 then (circuitsList0, cablesList.length)
        else (circuitsList0, circuits0)
      else (circuitsList0, circuits0)
    let circuitsList1 := cd.1
    let circuits1 := cd.2
    let cc2 : ℕ × ℕ :=
      if cables0 ≠ 0 then (cables0, if circuits1 ≠ 0 then circuits1 else cables0 / 3)
      else if circuits1 ≠ 0 then (circuits1 * 3, circuits1)
      else (3, 1)
    let cables := cc2.1
    let circuits := cc2.2
    let circuitsList := if circuitsList1 = [] then [circuits] else circuitsList1
    let numCircuits := max circuits (max voltages.length frequencies.length)
    let ci2vi := (circuitsList.enum.map (fun p => List.replicate p.2 p.1)).flatten
    let ctx : DecompCtx := ⟨ctype, frequencyRaw, frequencies, voltages, circuitsList, ci2vi, flt⟩
    let st0 : LoopSt :=
      ⟨[], (cables : ℤ), numCircuits, 0, 0, frequencies, mkRcbf frequencies circuitsList⟩
    match decompLoop ctx st0 with
    | .error e => .error e
    | .ok cs =>
      if cs.length < 1 then .error .noValidCircuit
      else
        match flt with
        | some fl => if fl.conn cs then .ok (ctype, cs) else .error .filtered
        | none => .ok (ctype, cs)

/-- `Connection.__init__` (lines 191-228 and on): the voltage checks and the
15 kV rail-voltage filter, then field parsing (`re.split` + `int`/`float`,
whose `ValueError`s surface as generic exceptions), then `connectionCore`.
The id normalisation, geometry handling and registry insertion carry no
information used by any claim and are omitted. -/
def connectionInit (ctype : ConnType) (voltages : List ℕ) (frequency : Option String)
    (circuits : Option String) (cables : Option String) (flt : Option Filt) :
    Except PyErr (ConnType × List Circuit) :=
  if voltages.length < 1 then .error .noVoltage
  else
    let voltagesF := voltages.filter (fun v => v ≠ 15000)
    if voltagesF.length < 1 then .error .noVoltage
    else
      let freqStrs := if pyTruthy frequency then pySplit (frequency.getD "") else ["50"]
      match freqStrs.mapM parseRat? with
      | none => .error .generic
      | some frequencies =>
        let cableStrs := if pyTruthy cables then pySplit (cables.getD "") else []
        match cableStrs.mapM parseNat? with
        | none => .error .generic
        | some cablesList =>
          let circStrs := if pyTruthy circuits then pySplit (circuits.getD "") else []
          match circStrs.mapM parseNat? with
          | none => .error .generic
          | some circuitsList =>
            connectionCore ctype voltagesF frequency frequencies cablesList circuitsList flt

/-- A raw line/cable record as consumed by `TransmissionLine.__init__` /
`TransmissionCable.__init__`: the properties relevant to circuit
decomposition. (`Rated_Capacity_*` / `Maximum_Current_*` / `DLR_*` feed only
the post-decomposition rating apportionment and `Operator`/geometry carry no
decomposition information; the modelled records leave them out.) -/
structure RawConn where
  id : ℕ
  voltages : List ℕ
  frequency : Option String
  circuits : Option String
  cables : Option String

/-- Outcome of a `load_from_json` batch: successfully constructed records,
skipped-and-logged record ids, and whether the loader reached `exit()`
(aborting the whole batch; later records are left unprocessed). -/
structure LoadResult where
  loaded : List (ℕ × ConnType × List Circuit)
  skipped : List ℕ
  aborted : Bool
deriving Repr, DecidableEq

/-- `TransmissionLine.load_from_json` (lines 690-748): `FilteredItem` silently
continues; `NoValidCircuitError`, `NoVoltageError` and `PowerFrequencyError`
are logged and skipped; `CircuitCountError` is logged, then skipped only for
the hard-coded record id 1445957438 and otherwise calls `exit()`;
any other exception (`CablesPerPhaseError` included) hits the catch-all
handler and calls `exit()`. -/
def loadLines (flt : Option Filt) : List RawConn → LoadResult
  | [] => ⟨[], [], false⟩
  | r :: rest =>
    match connectionInit ConnType.line r.voltages r.frequency r.circuits r.cables flt with
    | .ok v =>
      let res := loadLines flt rest
      ⟨(r.id, v) :: res.loaded, res.skipped, res.aborted⟩
    | .error .filtered => loadLines flt rest
    | .error .noValidCircuit =>
      let res := loadLines flt rest
      ⟨res.loaded, r.id :: res.skipped, res.aborted⟩
    | .error .noVoltage =>
      let res := loadLines flt rest
      ⟨res.loaded, r.id :: res.skipped, res.aborted⟩
    | .error .powerFrequency =>
      let res := loadLines flt rest
      ⟨res.loaded, r.id :: res.skipped, res.aborted⟩
    | .error .circuitCount =>
      if r.id = 1445957438 then
        let res := loadLines flt rest
        ⟨res.loaded, r.id :: res.skipped, res.aborted⟩
      else ⟨[], [], true⟩
    | .error _ => ⟨[], [], true⟩

/-- `TransmissionCable.load_from_json` (lines 802-854): like `loadLines`,
except that `CircuitCountError` has no dedicated handler (it falls into the
catch-all) and the catch-all `exit()`s unless the record is the hard-coded
dataset typo `Id == 378369401 and Cables == "3w"`, which is skipped. -/
def loadCables (flt : Option Filt) : List RawConn → LoadResult
  | [] => ⟨[], [], false⟩
  | r :: rest =>
    match connectionInit ConnType.cable r.voltages r.frequency r.circuits r.cables flt with
    | .ok v =>
      let res := loadCables flt rest
      ⟨(r.id, v) :: res.loaded, res.skipped, res.aborted⟩
    | .error .filtered => loadCables flt rest
    | .error .noValidCircuit =>
      let res := loadCables flt rest
      ⟨res.loaded, r.id :: res.skipped, res.aborted⟩
    | .error .noVoltage =>
      let res := loadCables flt rest
      ⟨res.loaded, r.id :: res.skipped, res.aborted⟩
    | .error .powerFrequency =>
      let res := loadCables flt rest
      ⟨res.loaded, r.id :: res.skipped, res.aborted⟩
    | .error _ =>
      if r.id = 378369401 ∧ r.cables = some "3w" then
        let res := loadCables flt rest
        ⟨res.loaded, r.id :: res.skipped, res.aborted⟩
      else ⟨[], [], true⟩

/-- The trivial `filter_f` (accepts every circuit and every connection);
used to instantiate claims about "successfully constructed" connections,
since the construction with `filter_f=None` appends no circuit at all
(line 415's `if filter_f and filter_f(c)`). -/
def filtAll : Filt := ⟨fun _ => true, fun _ => true⟩

instance {ε α : Type} [DecidableEq ε] [DecidableEq α] : DecidableEq (Except ε α) := fun a b =>
  match a, b with
  | .ok x, .ok y =>
    match decEq x y with
    | .isTrue h => .isTrue (h ▸ rfl)
    | .isFalse h => .isFalse (fun hc => h (by injection hc))
  | .error x, .error y =>
    match decEq x y with
    | .isTrue h => .isTrue (h ▸ rfl)
    | .isFalse h => .isFalse (fun hc => h (by injection hc))
  | .ok _, .error _ => .isFalse (fun hc => Except.noConfusion hc)
  | .error _, .ok _ => .isFalse (fun hc => Except.noConfusion hc)

/-- The circuits emitted for the record with voltages 110 kV + 220 kV, no
frequency, no circuit count and `Cables = "3"`: the loop runs
`num_circuits = max(1, len(voltages)) = 2` times, emitting 3 cables each
time although only 3 were declared (the "not enough cables" guard at
line 324 is commented out). -/
def c1CxCircuits : List Circuit :=
  [⟨110000, 50, 3, 3, 1, wireTypeDefault .line 110000⟩,
   ⟨220000, 50, 3, 3, 1, wireTypeDefault .line 220000⟩]

/-- The single circuit emitted in each round of the clean three-phase family
(one 380 kV voltage, 50 Hz, `cables = 3·k`, `circuits = k`). -/
def circuit380 : Circuit := ⟨380000, 50, 3, 3, 1, wireTypeDefault .line 380000⟩

theorem pyRound_one : pyRound 1 = 1 := by
  rw [pyRound]
  norm_num

theorem mkCircuit_380 :
    mkCircuit 380000 50 3 3 (wireTypeDefault .line 380000) = .ok circuit380 := by
  with_unfolding_all rfl

theorem f2p_50 : f2p 50 = some 3 := by
  rw [f2p]
  norm_num

/-- In the clean three-phase context (`[50]` frequencies, one voltage,
single-valued circuit list) with a multiple-of-three cable budget matching
the remaining circuits, one emission step always emits `circuit380` and
consumes exactly 3 cables. -/
theorem emitStep_clean50 (cl civ : List ℕ) (hcl : cl.length ≤ 1)
    (acc : List Circuit) (vi fi : ℕ) (unused : List ℚ) (rcbf : List (ℚ × ℤ)) (R : ℕ) :
    emitStep ⟨.line, some "50", [(50:ℚ)], [380000], cl, civ, some filtAll⟩
      ⟨acc, ((3 * (R + 1) : ℕ) : ℤ), R + 1, vi, fi, unused, rcbf⟩ 50
      = .ok ⟨acc ++ [circuit380], ((3 * R : ℕ) : ℤ), vi + 1,
          (if (50:ℚ) ∈ unused then unused.erase 50 else unused),
          (if rcbf.any (fun kv => kv.1 == 50) then rcbfDec rcbf 50 else rcbf)⟩ := by
  rw [emitStep, f2p_50]
  have hlen : ¬ (cl.length > 1) := by omega
  dsimp only
  rw [if_neg hlen]
  dsimp only [Except.map]
  rw [if_pos (by norm_num), if_neg (by simp)]
  simp only [List.length_singleton, Nat.mod_one, List.getD_cons_zero]
  have hfdiv : (((3 * (R + 1) : ℕ) : ℤ)).fdiv (((3:ℕ)) : ℤ) = ((R + 1 : ℕ) : ℤ) := by
    have h1 : ((3 * (R + 1) : ℕ) : ℤ) = ((3:ℕ) : ℤ) * ((R + 1 : ℕ) : ℤ) := by push_cast; ring
    rw [h1, Int.mul_fdiv_cancel_left _ (by norm_num)]
  rw [hfdiv]
  have hne : ((R + 1 : ℕ) : ℚ) ≠ 0 := by positivity
  have hdiv1 : (((R + 1 : ℕ) : ℤ) : ℚ) / ((R + 1 : ℕ) : ℚ) = 1 := by
    rw [show (((R + 1 : ℕ) : ℤ) : ℚ) = ((R + 1 : ℕ) : ℚ) by push_cast; ring]
    exact div_self hne
  rw [hdiv1, pyRound_one]
  have hmax : ((((3:ℕ)) : ℤ) ⊔ (((3:ℕ)) : ℤ) * 1) = ((3:ℕ) : ℤ) := by
    rw [mul_one, max_self]
  rw [hmax]
  rw [show (((3:ℕ)):ℤ) = (3:ℤ) by norm_num, mkCircuit_380]
  dsimp only [filtAll]
  simp only [if_pos rfl, Except.ok.injEq, EmitOut.mk.injEq, true_and, and_true]
  push_cast
  simp
  ring

/-- Loop invariant for the clean three-phase family: with `[50]` as frequency
list, a single 380 kV voltage, a cable budget of exactly `3·R` for `R`
remaining circuits, the loop emits `R` copies of `circuit380` and succeeds. -/
theorem decompLoop_clean50 (R : ℕ) : ∀ (cl civ : List ℕ), cl.length ≤ 1 →
    ∀ (acc : List Circuit) (vi fi : ℕ) (unused : List ℚ) (rcbf : List (ℚ × ℤ)),
      (unused = [] ∨ unused = [(50:ℚ)]) →
      decompLoop ⟨.line, some "50", [(50:ℚ)], [380000], cl, civ, some filtAll⟩
        ⟨acc, ((3 * R : ℕ) : ℤ), R, vi, fi, unused, rcbf⟩
        = .ok (acc ++ List.replicate R circuit380) := by
  induction R with
  | zero =>
    intro cl civ hcl acc vi fi unused rcbf hu
    rw [decompLoop.eq_def]
    simp
  | succ R ih =>
    intro cl civ hcl acc vi fi unused rcbf hu
    rw [decompLoop.eq_def]
    dsimp only
    by_cases hpar : ((3 * (R + 1) : ℕ) : ℤ) % 2 = 0
    · rw [if_pos ⟨by omega, hpar⟩, if_neg (by simp)]
      rcases hu with rfl | rfl
      · simp only [ne_eq, not_true_eq_false, if_false, List.length_singleton,
          Nat.mod_one, List.getD_cons_zero]
        rw [emitStep_clean50 cl civ hcl acc vi fi [] rcbf R]
        dsimp only
        simp only [List.not_mem_nil, if_false]
        rw [ih cl civ hcl (acc ++ [circuit380]) (vi + 1) (fi + 1) [] _ (Or.inl rfl)]
        simp [List.replicate_succ]
      · simp only [ne_eq, reduceCtorEq, not_false_eq_true, if_true, List.length_singleton,
          Nat.mod_one, List.getD_cons_zero]
        rw [emitStep_clean50 cl civ hcl acc vi fi [(50:ℚ)] rcbf R]
        dsimp only
        have h50 : (if (50:ℚ) ∈ [(50:ℚ)] then ([(50:ℚ)].erase 50) else [(50:ℚ)]) = [] := by
          simp
        rw [h50]
        rw [ih cl civ hcl (acc ++ [circuit380]) (vi + 1) (fi + 1) [] _ (Or.inl rfl)]
        simp [List.replicate_succ]
    · rw [if_neg (fun hc => hpar hc.2), if_pos ⟨by simp, Or.inl (by omega)⟩]
      rw [emitStep_clean50 cl civ hcl acc vi fi unused rcbf R]
      dsimp only
      have hu' : (if (50:ℚ) ∈ unused then unused.erase 50 else unused) = [] := by
        rcases hu with rfl | rfl
        · simp
        · simp [List.erase_cons_head]
      rw [hu']
      rw [ih cl civ hcl (acc ++ [circuit380]) (vi + 1) fi [] _ (Or.inl rfl)]
      simp [List.replicate_succ]

/-- C1 (counterexample). The raw line record with voltages 110 kV and 220 kV,
`Cables = "3"`, no circuit count and no frequency is successfully
constructed (under an all-accepting `filter_f`), yet its circuits carry
3 + 3 = 6 cables — more than the 3 cables the record declares. The claimed
invariant `sum(circuit.cable_count) ≤ total_declared_cables` is false:
the loop keeps emitting one full circuit per remaining round even after the
declared cable budget is exhausted (`raise CircuitCountError("Not enough
cables for all circuits")` at line 324 is commented out). -/
theorem claim_C1_counterexample :
    connectionInit ConnType.line [110000, 220000] none none (some "3") (some filtAll)
      = .ok (ConnType.line, c1CxCircuits)
    ∧ (c1CxCircuits.map Circuit.cables).sum = 6
    ∧ ¬ ((c1CxCircuits.map Circuit.cables).sum ≤ 3) := by
  refine ⟨?_, by with_unfolding_all decide, by with_unfolding_all decide⟩
  simp only [connectionInit, connectionCore, decompLoop_eq_fueled]
  with_unfolding_all rfl

/-- C1 (amended). For consistently declared three-phase records — `3·k`
declared cables for `k` declared circuits at a single grid voltage and 50 Hz —
the constructed connection has exactly `k` three-cable circuits, so the sum of
its circuit cable counts equals (hence never exceeds) the declared total. -/
theorem claim_C1_amended (k : ℕ) (hk : 1 ≤ k) :
    connectionCore ConnType.line [380000] (some "50") [(50:ℚ)] [3 * k] [k] (some filtAll)
      = .ok (ConnType.line, List.replicate k circuit380)
    ∧ ((List.replicate k circuit380).map Circuit.cables).sum ≤ ((3 * k : ℕ) : ℤ) := by
  constructor
  · have h1 : (k = 0) = False := eq_false (by omega)
    have h2 : (3 * k = 0) = False := eq_false (by omega)
    have h3 : ("50" = "0") = False := eq_false (by decide)
    have h4 : (k ⊔ (1 ⊔ 1)) = k := by omega
    have h5 : (k ⊔ 1) = k := by omega
    have h6 : (3 * (k:ℤ)) = ((3 * k : ℕ) : ℤ) := by push_cast; ring
    norm_num [connectionCore, List.sum_cons, List.sum_nil, List.length_singleton,
      List.length_cons, List.length_nil, h1, h2, h3, h4]
    rw [h5, h6]
    rw [decompLoop_clean50 k [k] (List.replicate k 0) (by simp) [] 0 0 [(50:ℚ)]
      (mkRcbf [(50:ℚ)] [k]) (Or.inr rfl)]
    simp only [List.nil_append]
    have h7 : ¬ (List.replicate k circuit380 = []) := by
      simp only [ne_eq, List.replicate_eq_nil_iff]
      omega
    rw [if_neg h7]
    rfl
  · simp only [List.map_replicate, List.sum_replicate, nsmul_eq_mul]
    have : circuit380.cables = 3 := rfl
    rw [this]
    push_cast
    omega

/-- C1 (witness for the amended theorem, at `k = 2`). -/
theorem claim_C1_witness :
    1 ≤ 2
    ∧ (connectionCore ConnType.line [380000] (some "50") [(50:ℚ)] [3 * 2] [2] (some filtAll)
        = .ok (ConnType.line, List.replicate 2 circuit380)
      ∧ ((List.replicate 2 circuit380).map Circuit.cables).sum ≤ ((3 * 2 : ℕ) : ℤ)) :=
  ⟨by omega, claim_C1_amended 2 (by omega)⟩

/-- The four circuits decomposed from the record with `Cables = "9;3"`,
`Circuits = "4"` and voltages 380 kV; 110 kV: lines 255-259 infer
`circuits_list = [9//3, 3//3] = [3, 1]`, so `ci2vi = [0,0,0,1]` routes the
first three circuits to the first voltage and the fourth to the second. -/
def c4Circuits : List Circuit :=
  [⟨380000, 50, 3, 3, 1, wireTypeDefault .line 380000⟩,
   ⟨380000, 50, 3, 3, 1, wireTypeDefault .line 380000⟩,
   ⟨380000, 50, 3, 3, 1, wireTypeDefault .line 380000⟩,
   ⟨110000, 50, 3, 3, 1, wireTypeDefault .line 110000⟩]

/-- C4. A connection record declaring `Cables = "9;3"`, `Circuits = "4"` with
no explicit per-voltage circuit split decomposes with circuit groups of 3 and
1 on the two cable groups (9/3 = 3 circuits at the first voltage, 3/3 = 1 at
the second) — not an arbitrary 2/2 split. -/
theorem claim_C4 :
    connectionInit ConnType.line [380000, 110000] none (some "4") (some "9;3") (some filtAll)
      = .ok (ConnType.line, c4Circuits)
    ∧ (c4Circuits.filter (fun c => c.voltage = 380000)).length = 3
    ∧ (c4Circuits.filter (fun c => c.voltage = 110000)).length = 1 := by
  refine ⟨?_, by with_unfolding_all decide, by with_unfolding_all decide⟩
  simp only [connectionInit, connectionCore, decompLoop_eq_fueled]
  with_unfolding_all rfl

/-- C2 (counterexample). A two-record line batch whose first record raises
`CircuitCountError` (`Cables = "1;4"`, `Circuits = "1"`, id 42 — not the
hard-coded 1445957438) aborts at `exit()`: the batch ends with
`aborted = true` and the perfectly loadable second record is never processed,
refuting "no single bad record aborts the batch". -/
theorem claim_C2_counterexample :
    (loadLines (some filtAll)
        [⟨42, [220000], none, some "1", some "1;4"⟩,
         ⟨7, [380000], some "50", some "1", some "3"⟩])
      = ⟨[], [], true⟩
    ∧ connectionInit ConnType.line [380000] (some "50") (some "1") (some "3") (some filtAll)
      = .ok (ConnType.line, [circuit380]) := by
  constructor
  · simp only [loadLines, connectionInit, connectionCore, decompLoop_eq_fueled]
    with_unfolding_all rfl
  · simp only [connectionInit, connectionCore, decompLoop_eq_fueled]
    with_unfolding_all rfl

/-- C2 (amended). A record failing with one of the skippable structural
errors — `NoValidCircuitError`, `NoVoltageError` or `PowerFrequencyError` —
is logged in `skipped` by both loaders and the remaining records are processed
exactly as if it were absent. (`CircuitCountError` and `CablesPerPhaseError`,
by contrast, abort the batch: the former `exit()`s in the line loader for
every id except the hard-coded 1445957438 and has no handler in the cable
loader; the latter falls to both catch-all handlers — see
`claim_C2_counterexample`.) -/
theorem claim_C2_amended (flt : Option Filt) (r : RawConn) (rest : List RawConn) (e : PyErr)
    (he : e = .noValidCircuit ∨ e = .noVoltage ∨ e = .powerFrequency)
    (hLine : connectionInit ConnType.line r.voltages r.frequency r.circuits r.cables flt
      = .error e)
    (hCable : connectionInit ConnType.cable r.voltages r.frequency r.circuits r.cables flt
      = .error e) :
    loadLines flt (r :: rest)
      = ⟨(loadLines flt rest).loaded, r.id :: (loadLines flt rest).skipped,
          (loadLines flt rest).aborted⟩
    ∧ loadCables flt (r :: rest)
      = ⟨(loadCables flt rest).loaded, r.id :: (loadCables flt rest).skipped,
          (loadCables flt rest).aborted⟩ := by
  constructor
  · rw [loadLines, hLine]
    rcases he with rfl | rfl | rfl <;> rfl
  · rw [loadCables, hCable]
    rcases he with rfl | rfl | rfl <;> rfl

/-- C2 (witness for the amended theorem): a record with an empty voltage list
fails with `NoVoltageError` in both loaders and is skipped, the following
record still being processed. -/
theorem claim_C2_witness :
    loadLines (some filtAll)
        (⟨5, [], none, none, none⟩ :: [⟨7, [380000], some "50", some "1", some "3"⟩])
      = ⟨(loadLines (some filtAll) [⟨7, [380000], some "50", some "1", some "3"⟩]).loaded,
          5 :: (loadLines (some filtAll) [⟨7, [380000], some "50", some "1", some "3"⟩]).skipped,
          (loadLines (some filtAll) [⟨7, [380000], some "50", some "1", some "3"⟩]).aborted⟩
    ∧ loadCables (some filtAll)
        (⟨5, [], none, none, none⟩ :: [⟨7, [380000], some "50", some "1", some "3"⟩])
      = ⟨(loadCables (some filtAll) [⟨7, [380000], some "50", some "1", some "3"⟩]).loaded,
          5 :: (loadCables (some filtAll) [⟨7, [380000], some "50", some "1", some "3"⟩]).skipped,
          (loadCables (some filtAll) [⟨7, [380000], some "50", some "1", some "3"⟩]).aborted⟩ :=
  claim_C2_amended (some filtAll) ⟨5, [], none, none, none⟩
    [⟨7, [380000], some "50", some "1", some "3"⟩] .noVoltage
    (Or.inr (Or.inl rfl))
    (by rw [connectionInit]; rfl)
    (by rw [connectionInit]; rfl)

/-! ### Node / Branch registry (`dataminer/model/node.py`) -/

/-- `util.Coords`: a latitude/longitude pair (floats, modelled as exact
rationals since the only operations are equality and `round`). -/
structure Coords where
  lat : ℚ
  lon : ℚ
deriving Repr, DecidableEq

/-- `Coords.round()` with the default precision of 6 digits. -/
def coordsRound (c : Coords) : Coords :=
  ⟨pyRoundTo c.lat 6, pyRoundTo c.lon 6⟩

/-- Python `sorted` on strings (lexicographic by code point); modelled by
insertion sort, which agrees with any stable comparison sort on a linear
order. -/
def pySortStrings (l : List String) : List String :=
  List.insertionSort (· ≤ ·) l

/-- The `while br_id in Node._all` search of `Branch.__init__` (lines
152-157): candidate `nr = 1` is the bare key, candidates `nr ≥ 2` append
`_{nr}`; an existing branch at the same (rounded) coordinates raises
`AlreadyExistsException`. Fuel `|registry| + 1` always suffices because the
candidate ids are pairwise distinct. -/
def brIdGo (all : List (String × Coords)) (coords : Coords) (base : String) :
    ℕ → ℕ → Except PyErr String
  | _, 0 => .error .generic
  | nr, fuel + 1 =>
    let brId := if nr = 1 then base else base ++ "_" ++ toString nr
    match (all.find? (fun kv => kv.1 == brId)).map Prod.snd with
    | some c =>
      if c = coords then .error .alreadyExists
      else brIdGo all coords base (nr + 1) fuel
    | none => .ok brId

/-- `Branch.__init__` (lines 147-157), up to the computed branch id:
`br_id = "br_" + "_".join(sorted(conn_dict.keys()))`, disambiguated against
the node registry by an increasing counter, with `AlreadyExistsException`
when an identically keyed branch already sits at the same rounded
coordinates. -/
def branchId (all : List (String × Coords)) (connIds : List String) (coords0 : Coords) :
    Except PyErr String :=
  let connList := String.intercalate "_" (pySortStrings connIds)
  let coords := coordsRound coords0
  brIdGo all coords ("br_" ++ connList) 1 (all.length + 1)

/-- The fields of `Transformer` relevant to the claims. -/
structure TransformerData where
  id : String
  sub : String
  hvV : ℕ
  lvV : ℕ
  hvBus : String
  lvBus : String
  power : ℚ
deriving Repr, DecidableEq

/-- The `while self.id in Transformer._all` counter search of
`Transformer.__init__` (lines 313-317). -/
def trIdGo (all : List String) (base : String) : ℕ → ℕ → String
  | nr, 0 => base ++ "_" ++ toString nr
  | nr, fuel + 1 =>
    let id := base ++ "_" ++ toString nr
    if id ∈ all then trIdGo all base (nr + 1) fuel else id

/-- `Transformer.__init__` (lines 311-330). `power or (600e6 if hv_v > 200000
else 80e6)`: a `None` or zero power argument falls back to the heuristic. -/
def mkTransformer (all : List String) (sub : String) (hvV lvV : ℕ) (power : Option ℚ) :
    TransformerData :=
  let base := "tr_" ++ sub ++ "_" ++ toString (hvV / 1000) ++ "_" ++ toString (lvV / 1000)
  let id := trIdGo all base 1 (all.length + 1)
  { id := id, sub := sub, hvV := hvV, lvV := lvV,
    hvBus := sub ++ "_" ++ toString (hvV / 1000),
    lvBus := sub ++ "_" ++ toString (lvV / 1000),
    power := match power with
      | some p => if p = 0 then (if hvV > 200000 then 600 * 1000000 else 80 * 1000000) else p
      | none => if hvV > 200000 then 600 * 1000000 else 80 * 1000000 }

/-- `Substation.update_transformers` (lines 209-220): after the substation's
own old transformers have been deleted from the registry (`registry` is what
remains), sort the voltages ascending and create one transformer per
consecutive pair `(v_lv, v_hv) = zip(voltages, voltages[1:])`, each insertion
extending the registry. Returns the new transformers and the final
registry. -/
def updateTransformers (sub : String) (voltages : List ℕ) (registry : List String) :
    List TransformerData × List String :=
  let sorted := List.insertionSort (· ≤ ·) voltages
  (sorted.zip sorted.tail).foldl
    (fun acc p =>
      let t := mkTransformer acc.2 sub p.2 p.1 none
      (acc.1 ++ [t], acc.2 ++ [t.id]))
    ([], registry)

/-! ### Endpoint resolution (`dataminer/__main__.py`, lines 381-389) -/

/-- `EndType` enum (START and END are modelled as `start` and `stop`). -/
inductive EndType
  | undef | start | stop
deriving Repr, DecidableEq

/-- One assignment performed in the `for conn_id in conn_pool` loop of
`main()`: connection `connId`'s endpoint of role `endType` is attached to
vertex `nodeId`. -/
structure EndAssign where
  connId : String
  endType : EndType
  nodeId : String

/-- The start/end node references of the connections
(`None` until resolved). -/
def EndState : Type := String → Option String × Option String

/-- Lines 381-389 of `dataminer/__main__.py`: assign `node.id` to the
designated endpoint of the connection, unless the connection's other endpoint
already references that very vertex (`# Prevent self loops`). -/
def applyAssign (st : EndState) (a : EndAssign) : EndState :=
  fun cid =>
    if cid = a.connId then
      let se := st a.connId
      if a.endType = .start then
        (if se.2 ≠ some a.nodeId then (some a.nodeId, se.2) else se)
      else if a.endType = .stop then
        (if se.1 ≠ some a.nodeId then (se.1, some a.nodeId) else se)
      else se
    else st cid

/-- The endpoint-resolution pass over all connection points, as the sequence
of guarded endpoint assignments it performs, starting from unresolved
(`None`/`None`) endpoints. -/
def resolveEndpoints (ops : List EndAssign) : EndState :=
  ops.foldl applyAssign (fun _ => (none, none))

/-- Sorting strings is invariant under permutation of the input (sortedness +
permutation + antisymmetry of the lexicographic order). -/
theorem pySortStrings_perm_eq {l1 l2 : List String} (h : l1.Perm l2) :
    pySortStrings l1 = pySortStrings l2 :=
  List.eq_of_perm_of_sorted
    ((List.perm_insertionSort _ l1).trans (h.trans (List.perm_insertionSort _ l2).symm))
    (List.sorted_insertionSort _ l1)
    (List.sorted_insertionSort _ l2)

/-- C7. A synthesized Branch vertex id is a deterministic function of the
*sorted* tuple of connection ids meeting at the point — any permutation of
the ids yields the same id, so re-running the resolver on identical input
re-creates identical branch ids — plus a disambiguating counter when an
identically keyed branch already exists at a different location (second
conjunct), while an identically keyed branch at the *same* rounded location
raises `AlreadyExistsException` (third conjunct). -/
theorem claim_C7 :
    (∀ (all : List (String × Coords)) (connIds1 connIds2 : List String) (c : Coords),
        connIds1.Perm connIds2 → branchId all connIds1 c = branchId all connIds2 c)
    ∧ branchId [("br_a_b", ⟨0, 0⟩)] ["b", "a"] ⟨1, 1⟩ = .ok "br_a_b_2"
    ∧ branchId [("br_a_b", ⟨0, 0⟩)] ["b", "a"] ⟨0, 0⟩ = .error .alreadyExists := by
  refine ⟨?_, by with_unfolding_all rfl, by with_unfolding_all rfl⟩
  intro all l1 l2 c hperm
  unfold branchId
  rw [pySortStrings_perm_eq hperm]

/-- C7 (witness): the permutation-invariance component applied at a concrete
input. -/
theorem claim_C7_witness :
    branchId [] ["b", "a"] ⟨0, 0⟩ = branchId [] ["a", "b"] ⟨0, 0⟩ :=
  claim_C7.1 [] ["b", "a"] ["a", "b"] ⟨0, 0⟩ (List.Perm.swap "a" "b" [])

/-- One guarded assignment preserves the no-self-loop invariant. -/
theorem applyAssign_inv (st : EndState)
    (hst : ∀ c m, (st c).1 = some m → (st c).2 ≠ some m) (a : EndAssign) :
    ∀ c m, ((applyAssign st a) c).1 = some m → ((applyAssign st a) c).2 ≠ some m := by
  intro c m h1
  unfold applyAssign at h1 ⊢
  by_cases hc : c = a.connId
  · simp only [hc, if_pos rfl] at h1 ⊢
    rcases het : a.endType with _ | _ | _ <;> simp only [het] at h1 ⊢
    · exact hst a.connId m h1
    · simp only [reduceCtorEq, if_false, if_true] at h1 ⊢
      by_cases hg : (st a.connId).2 ≠ some a.nodeId
      · rw [if_pos hg] at h1 ⊢
        simp only at h1 ⊢
        injection h1 with h1
        rw [h1] at hg
        exact hg
      · rw [if_neg hg] at h1 ⊢
        exact hst a.connId m h1
    · simp only [reduceCtorEq, if_false, if_true] at h1 ⊢
      by_cases hg : (st a.connId).1 ≠ some a.nodeId
      · rw [if_pos hg] at h1 ⊢
        simp only at h1 ⊢
        intro h2
        injection h2 with h2
        rw [h2] at hg
        exact hg h1
      · rw [if_neg hg] at h1 ⊢
        exact hst a.connId m h1
  · rw [if_neg hc] at h1 ⊢
    exact hst c m h1

/-- The invariant holds after folding any sequence of guarded assignments
over any state satisfying it. -/
theorem foldAssign_inv (ops : List EndAssign) :
    ∀ (st : EndState), (∀ c m, (st c).1 = some m → (st c).2 ≠ some m) →
      ∀ c m, ((ops.foldl applyAssign st) c).1 = some m →
        ((ops.foldl applyAssign st) c).2 ≠ some m := by
  induction ops with
  | nil => exact fun st h => h
  | cons a rest ih =>
    intro st hst
    exact ih (applyAssign st a) (applyAssign_inv st hst a)

/-- C8. After endpoint resolution, no connection has `startNode == endNode`:
whatever sequence of endpoint assignments the resolver performs, a
connection's start and end never reference the same vertex, because each
assignment is suppressed when the other endpoint already holds that vertex
(`# Prevent self loops`, `__main__.py` lines 384-389). -/
theorem claim_C8 (ops : List EndAssign) (cid n : String)
    (h : (resolveEndpoints ops cid).1 = some n) :
    (resolveEndpoints ops cid).2 ≠ some n :=
  foldAssign_inv ops (fun _ => (none, none)) (fun _ _ hm => by exact absurd hm (by simp))
    cid n h

/-- C8 (witness): a two-assignment run where both endpoints of connection
`"c"` are attracted to vertex `"N"`; the second assignment is suppressed. -/
theorem claim_C8_witness :
    (resolveEndpoints [⟨"c", .start, "N"⟩, ⟨"c", .stop, "N"⟩] "c").1 = some "N"
    ∧ (resolveEndpoints [⟨"c", .start, "N"⟩, ⟨"c", .stop, "N"⟩] "c").2 ≠ some "N" :=
  ⟨by with_unfolding_all rfl,
   claim_C8 [⟨"c", .start, "N"⟩, ⟨"c", .stop, "N"⟩] "c" "N" (by with_unfolding_all rfl)⟩

/-- The transformer-creation fold of `update_transformers` produces one
transformer per input pair, with `(hv, lv)` swapped from the zip pair,
independently of the registry threading. -/
theorem updTrafo_pairs (sub : String) :
    ∀ (ps : List (ℕ × ℕ)) (acc : List TransformerData) (reg : List String),
      ((ps.foldl
          (fun a p =>
            let t := mkTransformer a.2 sub p.2 p.1 none
            (a.1 ++ [t], a.2 ++ [t.id])) (acc, reg)).1.map (fun t => (t.hvV, t.lvV)))
        = acc.map (fun t => (t.hvV, t.lvV)) ++ ps.map (fun p => (p.2, p.1)) := by
  intro ps
  induction ps with
  | nil => intro acc reg; simp
  | cons p rest ih =>
    intro acc reg
    rw [List.foldl_cons]
    rw [ih]
    have h1 : (mkTransformer reg sub p.2 p.1 none).hvV = p.2 := rfl
    have h2 : (mkTransformer reg sub p.2 p.1 none).lvV = p.1 := rfl
    simp [h1, h2]

/-- C9. After transformer regeneration, a substation has exactly one
transformer per *consecutive* pair of its ascending-sorted voltage list
(first conjunct, for every substation, voltage list and registry); in
particular a substation whose voltage set is any permutation of
{110 kV, 220 kV, 380 kV} regenerates exactly 2 transformers — 220↔110 and
380↔220 — and never a direct 380↔110 transformer. -/
theorem claim_C9 :
    (∀ (sub : String) (vs : List ℕ) (reg : List String),
        ((updateTransformers sub vs reg).1.map (fun t => (t.hvV, t.lvV)))
          = (((List.insertionSort (· ≤ ·) vs).zip
              (List.insertionSort (· ≤ ·) vs).tail).map (fun p => (p.2, p.1))))
    ∧ (∀ (sub : String) (l : List ℕ), l.Perm [110000, 220000, 380000] →
        ((updateTransformers sub l []).1.map (fun t => (t.hvV, t.lvV)))
          = [(220000, 110000), (380000, 220000)]
        ∧ (updateTransformers sub l []).1.length = 2
        ∧ (380000, 110000)
            ∉ ((updateTransformers sub l []).1.map (fun t => (t.hvV, t.lvV)))) := by
  constructor
  · intro sub vs reg
    unfold updateTransformers
    rw [updTrafo_pairs]
    simp
  · intro sub l h
    have hsort : List.insertionSort (· ≤ ·) l = [110000, 220000, 380000] :=
      List.eq_of_perm_of_sorted ((List.perm_insertionSort _ l).trans h)
        (List.sorted_insertionSort _ l) (by decide)
    unfold updateTransformers
    rw [hsort]
    refine ⟨rfl, rfl, ?_⟩
    show (380000, 110000) ∉ [(220000, 110000), (380000, 220000)]
    decide

/-- C9 (witness): regeneration for a substation listing the three voltages
out of order. -/
theorem claim_C9_witness :
    ((updateTransformers "S" [220000, 110000, 380000] []).1.map (fun t => (t.hvV, t.lvV)))
      = [(220000, 110000), (380000, 220000)]
    ∧ (updateTransformers "S" [220000, 110000, 380000] []).1.length = 2
    ∧ (380000, 110000)
        ∉ ((updateTransformers "S" [220000, 110000, 380000] []).1.map
            (fun t => (t.hvV, t.lvV))) :=
  claim_C9.2 "S" [220000, 110000, 380000] (by decide)

/-! ### Topology repair pipeline (`analysis/network_validity_checker.py`) -/

/-- One row of the pandapower line table, with the columns the checker
reads. -/
structure LineRow where
  idx : ℕ
  fromBus : ℕ
  toBus : ℕ
  rOhmPerKm : ℚ
  xOhmPerKm : ℚ
  lengthKm : ℚ
deriving Repr, DecidableEq

/-- One row of the transformer table. -/
structure TrafoRow where
  idx : ℕ
  hvBus : ℕ
  lvBus : ℕ
  snMva : ℚ
deriving Repr, DecidableEq

/-- One row of the (PV) generator table. -/
structure GenRow where
  idx : ℕ
  bus : ℕ
  pMw : ℚ
  vmPu : ℚ
deriving Repr, DecidableEq

/-- One row of the static-generator table. -/
structure SgenRow where
  idx : ℕ
  bus : ℕ
  pMw : ℚ
deriving Repr, DecidableEq

/-- One row of the load table. -/
structure LoadRow where
  idx : ℕ
  bus : ℕ
  pMw : ℚ
deriving Repr, DecidableEq

/-- One row of the external-grid table. -/
structure ExtGridRow where
  idx : ℕ
  bus : ℕ
deriving Repr, DecidableEq

/-- The pandapower network tables the validity checker reads and writes.
`bus` maps bus index to `vn_kv`. -/
structure Net where
  bus : List (ℕ × ℚ)
  line : List LineRow
  trafo : List TrafoRow
  gen : List GenRow
  sgen : List SgenRow
  load : List LoadRow
  extGrid : List ExtGridRow
deriving Repr, DecidableEq

/-- The undirected edges of `top.create_nxgraph(net, respect_switches=False)`:
one edge per line and per transformer. -/
def netEdges (net : Net) : List (ℕ × ℕ) :=
  net.line.map (fun l => (l.fromBus, l.toBus)) ++ net.trafo.map (fun t => (t.hvBus, t.lvBus))

/-- Deduplicate keeping the first occurrence (Python insertion order). -/
def dedupKeepFirst (l : List ℕ) : List ℕ :=
  l.foldl (fun acc n => if n ∈ acc then acc else acc ++ [n]) []

/-- Duplicate-free node list of the graph: the buses, plus any endpoint an
edge mentions (networkx adds edge endpoints as nodes), in first-insertion
order. -/
def netNodes (net : Net) : List ℕ :=
  dedupKeepFirst (net.bus.map Prod.fst ++ (netEdges net).map Prod.fst
    ++ (netEdges net).map Prod.snd)

/-- Nodes connected to `start` in the undirected graph: grow the visited set
once per node, which reaches everything at distance ≤ `universe.length`. -/
def reachFrom (edges : List (ℕ × ℕ)) (univ : List ℕ) (start : ℕ) : List ℕ :=
  (List.range univ.length).foldl
    (fun vis _ =>
      vis ++ univ.filter (fun b =>
        b ∉ vis ∧ edges.any (fun e =>
          (e.1 = b ∧ e.2 ∈ vis) ∨ (e.2 = b ∧ e.1 ∈ vis))))
    [start]

/-- `nx.connected_components`: components in first-seen node order. -/
def components (net : Net) : List (List ℕ) :=
  (netNodes net).foldl
    (fun acc n =>
      if n ∈ acc.2 then acc
      else
        let comp := reachFrom (netEdges net) (netNodes net) n
        (acc.1 ++ [comp], acc.2 ++ comp))
    (([] : List (List ℕ)), ([] : List ℕ))
  |>.1

/-- First longest component, i.e. Python `max(components, key=len)`. -/
def maxByLen (c : List ℕ) (cs : List (List ℕ)) : List ℕ :=
  cs.foldl (fun best x => if best.length < x.length then x else best) c

/-- `_check_islands` (lines 56-88), returning the cleaned network and the
issues this check appends to `issues_found`: with a single component, no-op;
with none (no buses), `max()` raises and the catch-all logs the failure;
otherwise keep the largest component, filter every table down to it, and log
the removal. -/
def checkIslands (net : Net) : Net × List String :=
  let comps := components net
  if comps.length = 1 then (net, [])
  else
    match comps with
    | [] => (net, ["Connectivity check failed: max() arg is an empty sequence"])
    | c :: cs =>
      let keep := maxByLen c cs
      let isolated := (net.bus.map Prod.fst).filter (fun b => b ∉ keep)
      let net' : Net :=
        { bus := net.bus.filter (fun b => b.1 ∈ keep),
          line := net.line.filter (fun l => l.fromBus ∈ keep ∧ l.toBus ∈ keep),
          trafo := net.trafo.filter (fun t => t.hvBus ∈ keep ∧ t.lvBus ∈ keep),
          gen := net.gen.filter (fun g => g.bus ∈ keep),
          sgen := net.sgen.filter (fun g => g.bus ∈ keep),
          load := net.load.filter (fun l => l.bus ∈ keep),
          extGrid := net.extGrid.filter (fun e => e.bus ∈ keep) }
      (net', ["Removed " ++ toString (comps.length - 1) ++ " islands ("
        ++ toString isolated.length ++ " buses)"])

/-- Whether a line is problematic per `_check_zero_impedance_lines`
(lines 98-102): exactly zero total impedance, or both totals below `1e-6`. -/
def lineProblematic (l : LineRow) : Bool :=
  let rTotal := l.rOhmPerKm * l.lengthKm
  let xTotal := l.xOhmPerKm * l.lengthKm
  (rTotal = 0 ∧ xTotal = 0) ∨ (rTotal < 1/1000000 ∧ xTotal < 1/1000000)

/-- `_check_zero_impedance_lines` (lines 90-120). -/
def checkZeroImpedance (net : Net) : Net × List String :=
  if net.line.length = 0 then (net, [])
  else
    let n := (net.line.filter lineProblematic).length
    if n = 0 then (net, [])
    else
      ({ net with line := net.line.filter (fun l => ¬ lineProblematic l) },
       ["Skipped " ++ toString n ++ " lines with near-zero impedance"])

/-- `vn_kv` of a bus (`self.net.bus.at[...]`; the pipeline only looks up
buses present in the table). -/
def busVn (net : Net) (b : ℕ) : ℚ :=
  ((net.bus.find? (fun kv => kv.1 == b)).map Prod.snd).getD 0

/-- `_check_transformer_issues` (lines 122-163): drop transformers whose two
sides resolve to the same nominal voltage and transformers with zero rated
power, logging one issue per category. -/
def checkTrafoIssues (net : Net) : Net × List String :=
  if net.trafo.length = 0 then (net, [])
  else
    let sameV := net.trafo.filter (fun t => busVn net t.hvBus = busVn net t.lvBus)
    let zeroSn := net.trafo.filter (fun t => t.snMva = 0)
    if sameV.length + zeroSn.length = 0 then (net, [])
    else
      let net' := { net with
        trafo := net.trafo.filter
          (fun t => ¬ (busVn net t.hvBus = busVn net t.lvBus) ∧ ¬ (t.snMva = 0)) }
      let iss1 := if sameV.length > 0 then
        ["Skipped " ++ toString sameV.length ++ " transformers (same voltage)"] else []
      let iss2 := if zeroSn.length > 0 then
        ["Skipped " ++ toString zeroSn.length ++ " transformers (zero rating)"] else []
      (net', iss1 ++ iss2)

/-- `_check_external_grid_conflicts` (lines 165-194). The duplicate check is
performed on the deduplicated bus *set*, so it can never fire (a faithful
rendering of `pd.Series(list(ext_grid_buses)).value_counts()`); PV generators
sitting on external-grid buses are removed. -/
def checkExtGridConflicts (net : Net) : Net × List String :=
  let extBuses := (net.extGrid.map ExtGridRow.bus).dedup
  if net.gen.length > 0 then
    let conflictBuses := ((net.gen.map GenRow.bus).filter (fun b => b ∈ extBuses)).dedup
    if conflictBuses.length > 0 then
      ({ net with gen := net.gen.filter (fun g => g.bus ∉ conflictBuses) },
       ["Removed " ++ toString conflictBuses.length
         ++ " PV generators (on ext_grid buses)"])
    else (net, [])
  else (net, [])

/-- Distinct `vm_pu` values of the generators on one bus. -/
def vmValuesOn (net : Net) (b : ℕ) : List ℚ :=
  ((net.gen.filter (fun g => g.bus == b)).map GenRow.vmPu).dedup

/-- `_check_generator_voltage_conflicts` (lines 196-210): buses carrying
generators with differing voltage setpoints get all their setpoints replaced
by the mean. -/
def checkGenVmConflicts (net : Net) : Net × List String :=
  if net.gen.length = 0 then (net, [])
  else
    let conflictBuses := ((net.gen.map GenRow.bus).dedup).filter
      (fun b => (vmValuesOn net b).length > 1)
    if conflictBuses.length > 0 then
      let net' := { net with
        gen := net.gen.map (fun g =>
          if g.bus ∈ conflictBuses then
            { g with vmPu :=
                ((net.gen.filter (fun h => h.bus == g.bus)).map GenRow.vmPu).sum
                  / ((net.gen.filter (fun h => h.bus == g.bus)).length : ℚ) }
          else g) }
      (net', [toString conflictBuses.length
        ++ " buses had conflicting voltage setpoints (resolved)"])
    else (net, [])

/-- Python `"%.1f"`-style formatting of a non-negative rational
(`f"{x:.1f}"`, round half to even). -/
def pyFormat1 (x : ℚ) : String :=
  let t := pyRound (x * 10)
  toString (t.fdiv 10) ++ "." ++ toString (t.emod 10)

/-- `_check_power_balance` (lines 212-231): flag (never correct) a
generation/load ratio outside [0.90, 1.20], and a zero total load. -/
def checkPowerBalance (net : Net) : Net × List String :=
  let totalGen := (net.gen.map GenRow.pMw).sum + (net.sgen.map SgenRow.pMw).sum
  let totalLoad := (net.load.map LoadRow.pMw).sum
  if totalLoad = 0 then (net, ["Total load is zero"])
  else
    let ratioV := totalGen / totalLoad
    if ratioV < 90/100 then
      (net, ["Generation at " ++ pyFormat1 (ratioV * 100) ++ "% of load"])
    else if ratioV > 120/100 then
      (net, ["Generation at " ++ pyFormat1 (ratioV * 100) ++ "% of load"])
    else (net, [])

/-- Result of `check_and_clean`: the cleaned network, the issue list, and
`is_valid = len(issues_found) == 0`. -/
structure CheckOut where
  net : Net
  issues : List String
  isValid : Bool
deriving Repr, DecidableEq

/-- `NetworkValidityChecker.check_and_clean` (lines 21-54): run the six
checks in order — each appending its findings to `issues_found` — then report
`is_valid = len(issues_found) == 0`. -/
def checkAndClean (net : Net) : CheckOut :=
  let r1 := checkIslands net
  let r2 := checkZeroImpedance r1.1
  let r3 := checkTrafoIssues r2.1
  let r4 := checkExtGridConflicts r3.1
  let r5 := checkGenVmConflicts r4.1
  let r6 := checkPowerBalance r5.1
  let issues := r1.2 ++ r2.2 ++ r3.2 ++ r4.2 ++ r5.2 ++ r6.2
  ⟨r6.1, issues, issues.isEmpty⟩

/-- A 3-bus network with one isolated bus (bus 2), balanced generation and
load, healthy line impedance and no transformer or setpoint problems: the
only thing "wrong" with it is the island, which the pipeline removes. -/
def c3Net : Net :=
  { bus := [(0, 380), (1, 380), (2, 380)],
    line := [⟨0, 0, 1, 6/100, 3/10, 10⟩],
    trafo := [], gen := [],
    sgen := [⟨0, 0, 100⟩],
    load := [⟨0, 0, 100⟩],
    extGrid := [⟨0, 0⟩] }

/-- C3 (counterexample). On `c3Net` the pipeline removes the single island —
an auto-corrected repair, after which the cleaned network is one connected
component with no remaining structural problem — yet `is_valid` comes back
`false`, because `is_valid = len(issues_found) == 0` counts every recorded
issue, auto-corrected or not. This refutes "is_valid is false only if
unresolvable structural errors remain". -/
theorem claim_C3_counterexample :
    (checkAndClean c3Net).isValid = false
    ∧ (checkAndClean c3Net).issues = ["Removed 1 islands (1 buses)"]
    ∧ components (checkAndClean c3Net).net = [[0, 1]] := by
  refine ⟨?_, ?_, ?_⟩ <;> with_unfolding_all rfl

/-- C3 (amended). `is_valid` is false whenever *any* check records an issue,
auto-corrected ones included: in particular, any input network with two or
more connected components (whose islands the pipeline then removes) always
yields `is_valid = false`. -/
theorem claim_C3_amended (net : Net) (h : 2 ≤ (components net).length) :
    (checkAndClean net).isValid = false := by
  have h1 : (checkIslands net).2 ≠ [] := by
    unfold checkIslands
    rcases hc : components net with _ | ⟨c, cs⟩
    · rw [hc] at h; simp at h
    · simp only [hc]
      rw [hc] at h
      rw [if_neg (by rw [List.length_cons] at h ⊢; omega)]
      simp
  unfold checkAndClean
  rcases hI : (checkIslands net).2 with _ | ⟨a, l⟩
  · exact absurd hI h1
  · simp [hI]

/-- C3 (witness for the amended theorem): `c3Net` has two components and is
reported invalid. -/
theorem claim_C3_witness :
    2 ≤ (components c3Net).length ∧ (checkAndClean c3Net).isValid = false :=
  ⟨by with_unfolding_all decide, claim_C3_amended c3Net (by with_unfolding_all decide)⟩

/-! ### Scenario parameterization (`analysis/opf.py` `OPFEngine._apply_scenario`
and `analysis/data_preprocessor.py` `DataPreprocessor._scale_generation`) -/

/-- Lowercasing a Python string (`str.lower()`). -/
def pyLower (s : String) : String := String.mk (s.data.map Char.toLower)

/-- `str.strip()` (spaces only, which is all the data contains). -/
def pyStrip (s : String) : String :=
  String.mk (((s.data.dropWhile (fun c => c = ' ')).reverse.dropWhile
    (fun c => c = ' ')).reverse)

/-- Whether `a` is a prefix of `b` (on character lists). -/
def prefB : List Char → List Char → Bool
  | [], _ => true
  | _ :: _, [] => false
  | c :: cs, d :: ds => c = d ∧ prefB cs ds

/-- Whether `a` occurs contiguously in `b` (on character lists). -/
def infB (a : List Char) : List Char → Bool
  | [] => prefB a []
  | d :: ds => prefB a (d :: ds) || infB a ds

/-- Python `a in b` on strings (substring containment). -/
def substrB (a b : String) : Bool := infB a.data b.data

/-- One row of a pandapower `gen`/`sgen`/`storage` table as `_apply_scenario`
sees it; `none` in an optional column models a NaN cell. -/
structure DispRow where
  gtype : String
  pMw : ℚ
  maxPMw : Option ℚ
  minPMw : Option ℚ
deriving Repr, DecidableEq

/-- A dispatch table: its rows plus whether the `max_p_mw` / `min_p_mw`
columns exist (pandas columns exist table-wide). -/
structure DispTable where
  hasMaxCol : Bool
  hasMinCol : Bool
  rows : List DispRow
deriving Repr, DecidableEq

/-- The `# Ensure columns exist` step of `apply_cf_to_table` (lines 103-104):
a missing `max_p_mw` column is created from `p_mw`, a missing `min_p_mw`
column is created as 0.0. -/
def matRows (df : DispTable) : List DispRow :=
  df.rows.map (fun r =>
    { r with maxPMw := if df.hasMaxCol then r.maxPMw else some r.pMw,
             minPMw := if df.hasMinCol then r.minPMw else some 0 })

/-- `install_cap` (lines 111-113): the row's `max_p_mw` unless NaN or ≤ 0, in
which case `p_mw`. -/
def instCap (r : DispRow) : ℚ :=
  match r.maxPMw with
  | some v => if v ≤ 0 then r.pMw else v
  | none => r.pMw

/-- The capacity-factor lookup of `_apply_scenario` (line 116):
`cfs.get(gen_type, 1.0)` — exact dictionary lookup with global default 1.0
and *no* substring tier. -/
def cfLookup (cfs : List (String × ℚ)) (t : String) : ℚ :=
  (((cfs.find? (fun kv => kv.1 == t)).map Prod.snd)).getD 1

/-- Lines 106-150 of `opf.py`, the per-row body of `apply_cf_to_table`:
border generators are skipped; otherwise `actual_p = install_cap · cf` is
written to `p_mw` and the dispatch bounds are set — storage by mode,
ordinary generators to `max = actual_p`, `min = 0.5 · actual_p`. -/
def updateRow (cfs : List (String × ℚ)) (mode : String) (et : String) (r : DispRow) :
    DispRow :=
  if r.gtype = "border" then r
  else
    let actual := instCap r * cfLookup cfs r.gtype
    if et = "storage" then
      if mode = "charge_only" then
        { r with pMw := actual, maxPMw := some 0, minPMw := some (-actual) }
      else if mode = "discharge_only" then
        { r with pMw := actual, maxPMw := some actual, minPMw := some 0 }
      else
        { r with pMw := actual, maxPMw := some actual, minPMw := some (-actual) }
    else
      { r with pMw := actual, maxPMw := some actual, minPMw := some ((1/2) * actual) }

/-- `apply_cf_to_table` (lines 99-150): empty tables are returned untouched
(before the columns are even materialised); otherwise materialise the bound
columns and update every row. -/
def applyCfToTable (cfs : List (String × ℚ)) (mode : String) (et : String)
    (df : DispTable) : DispTable :=
  if df.rows.length = 0 then df
  else ⟨true, true, (matRows df).map (updateRow cfs mode et)⟩

/-- One row of the load table as `_apply_scenario` touches it. -/
structure OpfLoadRow where
  pMw : ℚ
  qMvar : ℚ
  scaling : ℚ
deriving Repr, DecidableEq

/-- The parts of the pandapower network `_apply_scenario` reads or writes. -/
structure OpfNet where
  gen : DispTable
  sgen : DispTable
  storage : DispTable
  load : List OpfLoadRow
deriving Repr, DecidableEq

/-- A scenario configuration: `scenario_data.get('capacity_factors', {})`,
`…('load_scale', 1.0)` and `…('storage_mode', 'bidirectional')`. -/
structure ScenarioData where
  capacityFactors : Option (List (String × ℚ))
  loadScale : Option ℚ
  storageMode : Option String
deriving Repr, DecidableEq

/-- `OPFEngine._apply_scenario` (lines 88-172) as a function of the base
network and the scenario: `net = copy.deepcopy(self.base_net)` makes every
subsequent write hit the copy (modelled as a value), the three dispatch
tables get their capacity factors applied, and the loads are scaled. -/
def applyScenario (baseNet : OpfNet) (sc : ScenarioData) : OpfNet :=
  let cfs := sc.capacityFactors.getD []
  let loadScale := sc.loadScale.getD 1
  let storageMode := sc.storageMode.getD "bidirectional"
  let net := baseNet
  let net1 := { net with
    gen := applyCfToTable cfs storageMode "gen" net.gen,
    sgen := applyCfToTable cfs storageMode "sgen" net.sgen,
    storage := applyCfToTable cfs storageMode "storage" net.storage }
  { net1 with load := net1.load.map (fun l =>
      ⟨l.pMw * loadScale, l.qMvar * loadScale, loadScale⟩) }

/-- The engine state around `_apply_scenario`: the cached base network and the
last scenario network. -/
structure OPFEngine where
  baseNet : OpfNet
  scenarioNet : Option OpfNet
deriving Repr, DecidableEq

/-- `run_scenario` step 2 (line 72): `self.scenario_net, … =
self._apply_scenario(…)` — the engine state update around the pure
parameterization. -/
def engineApplyScenario (eng : OPFEngine) (sc : ScenarioData) : OPFEngine × OpfNet :=
  let net := applyScenario eng.baseNet sc
  ({ eng with scenarioNet := some net }, net)

/-- A generator record of the preprocessor (`bus_id`/name/year carry no
scaling information and are omitted). -/
structure GenRec where
  genType : String
  pMw : ℚ
  snMva : ℚ
deriving Repr, DecidableEq

/-- The capacity-factor resolution of `_scale_generation` (lines 81-89):
exact `dict.get`, then the first key containing or contained in the
(lowercased, stripped) generation type; `none` = no factor applied. -/
def scaleFactor (cfs : List (String × ℚ)) (gt : String) : Option ℚ :=
  match (cfs.find? (fun kv => kv.1 == gt)).map Prod.snd with
  | some v => some v
  | none => (cfs.find? (fun kv => substrB kv.1 gt ∨ substrB gt kv.1)).map Prod.snd

/-- `DataPreprocessor._scale_generation` (lines 67-111), restricted to its
row transformations: per-row capacity factors (step 1) followed by the
overall scaling factor (step 2); rows without any matching factor are left
unscaled in step 1. -/
def scaleGeneration (cfs : List (String × ℚ)) (overall : ℚ) (gens : List GenRec) :
    List GenRec :=
  let gens1 := gens.map (fun g =>
    match scaleFactor cfs (pyStrip (pyLower g.genType)) with
    | some f => { g with pMw := g.pMw * f, snMva := g.snMva * f }
    | none => g)
  if overall ≠ 1 then
    gens1.map (fun g => { g with pMw := g.pMw * overall, snMva := g.snMva * overall })
  else gens1

/-- Following the spec's words ("Capacity-factor lookup falls back through
exact-match → substring-match → global default"): the reference fallback
chain that the claim asserts scenario parameterization implements. -/
def specCapacityFactorChain (cfs : List (String × ℚ)) (t : String) : ℚ :=
  match (cfs.find? (fun kv => kv.1 == t)).map Prod.snd with
  | some v => v
  | none =>
    match (cfs.find? (fun kv => substrB kv.1 t ∨ substrB t kv.1)).map Prod.snd with
    | some v => v
    | none => 1

/-- The dispatch table of the single non-exact-matching generator used in the
C5 counterexample. -/
def c5df : DispTable := ⟨true, true, [⟨"wind offshore", 100, some 100, some 0⟩]⟩

/-- C5 (counterexample). With capacity factors `{"wind": 0.3}` and a
generator of type `"wind offshore"`, scenario parameterization
(`_apply_scenario`, `cfs.get(gen_type, 1.0)`) uses factor 1.0 — leaving
`max_p_mw = 100` — although the claimed exact → substring → default chain
would find the substring match `"wind"` and yield 0.3 (i.e. 30). There is no
substring tier in the scenario parameterizer. -/
theorem claim_C5_counterexample :
    cfLookup [("wind", 3/10)] "wind offshore" = 1
    ∧ specCapacityFactorChain [("wind", 3/10)] "wind offshore" = 3/10
    ∧ ((applyCfToTable [("wind", 3/10)] "bidirectional" "gen" c5df).rows.map DispRow.maxPMw)
      = [some 100]
    ∧ ((100 : ℚ) * specCapacityFactorChain [("wind", 3/10)] "wind offshore") ≠ 100 := by
  refine ⟨?_, ?_, ?_, ?_⟩ <;> with_unfolding_all decide

/-- C5 (amended). The exact → substring → default chain lives in the *data
preprocessor*, not in scenario parameterization: (a) `_apply_scenario`'s
lookup returns the global default 1.0 whenever the exact match fails, no
matter what substring matches exist; (b) `_scale_generation`'s factor
resolution is exactly the spec's fallback chain (with "leave unscaled" as the
default tier); (c) applied to a row, `_scale_generation` multiplies `p_mw`
and `sn_mva` by the resolved chain factor. -/
theorem claim_C5_amended :
    (∀ (cfs : List (String × ℚ)) (t : String),
        cfs.find? (fun kv => kv.1 == t) = none → cfLookup cfs t = 1)
    ∧ (∀ (cfs : List (String × ℚ)) (t : String),
        (scaleFactor cfs t).getD 1 = specCapacityFactorChain cfs t)
    ∧ (∀ (cfs : List (String × ℚ)) (g : GenRec),
        scaleGeneration cfs 1 [g]
          = [{ g with
                pMw := g.pMw * ((scaleFactor cfs (pyStrip (pyLower g.genType))).getD 1),
                snMva := g.snMva * ((scaleFactor cfs (pyStrip (pyLower g.genType))).getD 1) }]) := by
  refine ⟨?_, ?_, ?_⟩
  · intro cfs t h
    unfold cfLookup
    rw [h]
    rfl
  · intro cfs t
    unfold scaleFactor specCapacityFactorChain
    cases h1 : (cfs.find? (fun kv => kv.1 == t)).map Prod.snd with
    | some v => simp [h1]
    | none =>
      cases h2 : (cfs.find? (fun kv => substrB kv.1 t ∨ substrB t kv.1)).map Prod.snd with
      | some v => simp [h1, h2]
      | none => simp [h1, h2]
  · intro cfs g
    unfold scaleGeneration
    rw [if_neg (by simp)]
    cases hf : scaleFactor cfs (pyStrip (pyLower g.genType)) with
    | some f => simp [hf]
    | none =>
      simp only [List.map_cons, List.map_nil, hf, Option.getD_none]
      cases g
      simp

/-- C5 (witness for part (a) of the amended theorem): with no exact match,
the scenario parameterizer's lookup yields the default 1.0 even though a
substring match exists. -/
theorem claim_C5_witness :
    cfLookup [("wind", (3:ℚ)/10)] "wind offshore" = 1 :=
  claim_C5_amended.1 [("wind", (3:ℚ)/10)] "wind offshore" (by with_unfolding_all decide)

/-- C6. `_apply_scenario` is a pure function of (base network, scenario):
two engines sharing a base network produce identical parameterized networks
(hence identical dispatch bounds); the cached base network field is unchanged
by parameterization; and applying the same scenario a second time — on the
engine state left behind by the first application — reproduces the identical
parameterized network. -/
theorem claim_C6 (e1 e2 : OPFEngine) (sc : ScenarioData) (h : e1.baseNet = e2.baseNet) :
    (engineApplyScenario e1 sc).2 = (engineApplyScenario e2 sc).2
    ∧ (engineApplyScenario e1 sc).1.baseNet = e1.baseNet
    ∧ (engineApplyScenario e2 sc).1.baseNet = e2.baseNet
    ∧ (engineApplyScenario (engineApplyScenario e1 sc).1 sc).2
      = (engineApplyScenario e1 sc).2 := by
  unfold engineApplyScenario
  exact ⟨by rw [h], rfl, rfl, rfl⟩

/-- The concrete base network used by the C6 witness. -/
def c6Base : OpfNet :=
  ⟨⟨true, true, [⟨"wind", 10, some 10, some 0⟩]⟩,
   ⟨true, true, []⟩, ⟨true, true, []⟩, [⟨5, 2, 1⟩]⟩

/-- C6 (witness): two engines with the same base network but different
previous scenario networks. -/
theorem claim_C6_witness :
    (engineApplyScenario ⟨c6Base, none⟩ ⟨some [("wind", 1/2)], some (11/10), none⟩).2
      = (engineApplyScenario ⟨c6Base, some c6Base⟩ ⟨some [("wind", 1/2)], some (11/10), none⟩).2
    ∧ (engineApplyScenario ⟨c6Base, none⟩ ⟨some [("wind", 1/2)], some (11/10), none⟩).1.baseNet
      = (⟨c6Base, none⟩ : OPFEngine).baseNet
    ∧ (engineApplyScenario ⟨c6Base, some c6Base⟩
        ⟨some [("wind", 1/2)], some (11/10), none⟩).1.baseNet
      = (⟨c6Base, some c6Base⟩ : OPFEngine).baseNet
    ∧ (engineApplyScenario
        (engineApplyScenario ⟨c6Base, none⟩ ⟨some [("wind", 1/2)], some (11/10), none⟩).1
        ⟨some [("wind", 1/2)], some (11/10), none⟩).2
      = (engineApplyScenario ⟨c6Base, none⟩ ⟨some [("wind", 1/2)], some (11/10), none⟩).2 :=
  claim_C6 ⟨c6Base, none⟩ ⟨c6Base, some c6Base⟩ ⟨some [("wind", 1/2)], some (11/10), none⟩ rfl

/-- Every pair of a list zipped with its image under `f` relates by `f`. -/
theorem zip_map_snd {α β : Type} (f : α → β) :
    ∀ (l : List α) (q : α × β), q ∈ l.zip (l.map f) → q.2 = f q.1 := by
  intro l
  induction l with
  | nil => intro q hq; simp at hq
  | cons a t ih =>
    intro q hq
    rw [List.map_cons, List.zip_cons_cons] at hq
    rcases List.mem_cons.mp hq with rfl | hq'
    · rfl
    · exact ih q hq'

/-- C10. For every non-storage table, every non-border row processed by
`apply_cf_to_table` ends with `max_p_mw = install_cap · cf` and
`min_p_mw = 0.5 · (install_cap · cf)` — the solver's lower dispatch bound is
pinned at 50% of the scenario-available power. (`matRows df` is the table
after the bound columns are materialised; its zip with the output pairs each
input row with its updated row.) -/
theorem claim_C10 (cfs : List (String × ℚ)) (mode et : String) (df : DispTable)
    (het : et ≠ "storage") :
    ∀ p ∈ (matRows df).zip ((applyCfToTable cfs mode et df).rows),
      p.1.gtype ≠ "border" →
      p.2.maxPMw = some (instCap p.1 * cfLookup cfs p.1.gtype)
      ∧ p.2.minPMw = some ((1/2) * (instCap p.1 * cfLookup cfs p.1.gtype)) := by
  intro p hp hb
  unfold applyCfToTable at hp
  by_cases hn : df.rows.length = 0
  · rw [if_pos hn] at hp
    have hrows : df.rows = [] := List.length_eq_zero.mp hn
    rw [matRows, hrows] at hp
    simp at hp
  · rw [if_neg hn] at hp
    have h2 := zip_map_snd (updateRow cfs mode et) (matRows df) p hp
    rw [h2]
    unfold updateRow
    rw [if_neg hb, if_neg het]
    exact ⟨rfl, rfl⟩

/-- The dispatch table of the C10 witness. -/
def c10df : DispTable := ⟨true, true, [⟨"wind", 100, some 200, some 0⟩]⟩

/-- C10 (witness): a 200 MW-nameplate generator at capacity factor 1/4 gets
`max_p_mw = 50` and `min_p_mw = 25`. -/
theorem claim_C10_witness :
    ((⟨"wind", 100, some 200, some 0⟩, ⟨"wind", 50, some 50, some 25⟩) :
        DispRow × DispRow).2.maxPMw
      = some (instCap ⟨"wind", 100, some 200, some 0⟩ * cfLookup [("wind", 1/4)] "wind")
    ∧ ((⟨"wind", 100, some 200, some 0⟩, ⟨"wind", 50, some 50, some 25⟩) :
        DispRow × DispRow).2.minPMw
      = some ((1/2) * (instCap ⟨"wind", 100, some 200, some 0⟩
          * cfLookup [("wind", 1/4)] "wind")) :=
  claim_C10 [("wind", 1/4)] "bidirectional" "gen" c10df (by decide)
    (⟨"wind", 100, some 200, some 0⟩, ⟨"wind", 50, some 50, some 25⟩)
    (by with_unfolding_all decide) (by decide)

end PF
